import Mathlib

/-!
Verification of the BookMyResort booking backend (src/main.py, src/schemas.py).

The booking computation is embedded shallowly:
* Python floats carrying prices are modelled as rationals (all catalog prices
  and the arithmetic in `create_booking` are exact decimal values).
* ISO `YYYY-MM-DD` date strings are modelled as parsed calendar dates; the
  `datetime.fromisoformat` / `timedelta.days` subtraction in `create_booking`
  becomes the difference of proleptic-Gregorian ordinals, mirroring
  `datetime.date.toordinal`.
* `uuid.uuid4()` is modelled by its 128-bit value; `str(u)[:8]` is the
  zero-padded lowercase hex of its top 32 bits.
* The `create_document` call that may raise inside the `try/except` is
  modelled by an explicit `persistFails` flag consumed by `attemptPersist`.
-/

namespace BookMyResort

/-- A restaurant add-on line item (schemas.py `OrderedItem`).
The pydantic schema constrains `price ≥ 0` and `quantity ≥ 1`; those
constraints are stated separately as `OrderedItem.schemaValid`. -/
structure OrderedItem where
  name : String
  price : ℚ
  quantity : ℤ
deriving DecidableEq

/-- The pydantic field constraints on `OrderedItem` (schemas.py lines 17-20):
`price : float = Field(..., ge=0)`, `quantity : int = Field(..., ge=1)`. -/
def OrderedItem.schemaValid (i : OrderedItem) : Prop :=
  0 ≤ i.price ∧ 1 ≤ i.quantity

instance (i : OrderedItem) : Decidable i.schemaValid := by
  unfold OrderedItem.schemaValid; infer_instance

/-- A catalog entry (main.py `Location`). -/
structure Location where
  name : String
  image : String
  price_per_night : ℚ
  available : Bool
  facilities : List String
deriving DecidableEq

/-- A parsed `YYYY-MM-DD` calendar date (what `datetime.fromisoformat`
produces for the date strings of a booking request). -/
structure CalendarDate where
  year : Nat
  month : Nat
  day : Nat
deriving DecidableEq

/-- Gregorian leap-year test, as in Python `calendar.isleap`. -/
def isLeapYear (y : Nat) : Bool :=
  y % 4 == 0 && (y % 100 != 0 || y % 400 == 0)

/-- Cumulative day counts before each month in a non-leap year
(Python `datetime._DAYS_BEFORE_MONTH`). -/
def cumDaysBefore : Nat → Nat
  | 1 => 0
  | 2 => 31
  | 3 => 59
  | 4 => 90
  | 5 => 120
  | 6 => 151
  | 7 => 181
  | 8 => 212
  | 9 => 243
  | 10 => 273
  | 11 => 304
  | 12 => 334
  | _ => 0

/-- Days in the year strictly before month `m` of year `y`
(Python `datetime._days_before_month`). -/
def daysBeforeMonth (y m : Nat) : Nat :=
  cumDaysBefore m + (if 2 < m ∧ isLeapYear y then 1 else 0)

/-- Proleptic Gregorian ordinal of a date, day 1 being 0001-01-01
(Python `datetime.date.toordinal`). -/
def toOrdinal (d : CalendarDate) : Nat :=
  365 * (d.year - 1) + (d.year - 1) / 4 - (d.year - 1) / 100 + (d.year - 1) / 400
    + daysBeforeMonth d.year d.month + d.day

/-- The `(d2 - d1).days` computation of main.py line 94 for date-only
inputs: the signed difference of the two ordinals. -/
def nightsBetween (d1 d2 : CalendarDate) : ℤ :=
  (toOrdinal d2 : ℤ) - (toOrdinal d1 : ℤ)

/-- The booking request body (schemas.py `BookingCreate`), with its two
date strings already parsed. -/
structure BookingCreate where
  guest_name : String
  email : String
  location : String
  check_in_date : CalendarDate
  check_out_date : CalendarDate
  check_in_time : String
  check_out_time : String
  restaurant_addons : List OrderedItem
deriving DecidableEq

/-- The persisted booking record (schemas.py `Booking`). -/
structure Booking where
  booking_id : String
  guest_name : String
  email : String
  location : String
  check_in_date : CalendarDate
  check_out_date : CalendarDate
  check_in_time : String
  check_out_time : String
  nights : ℤ
  price_per_night : ℚ
  accommodation_total : ℚ
  restaurant_addons : List OrderedItem
  restaurant_total : ℚ
  total_amount : ℚ
deriving DecidableEq

/-- Catalog entry for Chennai (main.py line 65). -/
def chennaiLoc : Location :=
  { name := "Chennai"
  , image := "https://images.unsplash.com/photo-1501117716987-c8e1ecb2101f?q=80&w=1400&auto=format&fit=crop"
  , price_per_night := 149
  , available := true
  , facilities := ["pool", "spa", "gym"] }

/-- Catalog entry for Salem (main.py line 66). -/
def salemLoc : Location :=
  { name := "Salem"
  , image := "https://images.unsplash.com/photo-1500375592092-40eb2168fd21?q=80&w=1400&auto=format&fit=crop"
  , price_per_night := 119
  , available := true
  , facilities := ["pool", "gym"] }

/-- Catalog entry for Kerala (main.py line 67). -/
def keralaLoc : Location :=
  { name := "Kerala"
  , image := "https://images.unsplash.com/photo-1604177091072-df5bb03e9b7b?q=80&w=1400&auto=format&fit=crop"
  , price_per_night := 199
  , available := true
  , facilities := ["pool", "spa", "yoga"] }

/-- Catalog entry for Madurai (main.py line 68): the only entry whose
`available` flag is `False`. -/
def maduraiLoc : Location :=
  { name := "Madurai"
  , image := "https://images.unsplash.com/photo-1547586696-ea22b4e52f95?q=80&w=1400&auto=format&fit=crop"
  , price_per_night := 129
  , available := false
  , facilities := ["gym"] }

/-- Catalog entry for Coimbatore (main.py line 69). -/
def coimbatoreLoc : Location :=
  { name := "Coimbatore"
  , image := "https://images.unsplash.com/photo-1502920514313-52581002a659?q=80&w=1400&auto=format&fit=crop"
  , price_per_night := 139
  , available := true
  , facilities := ["pool", "spa"] }

/-- Catalog entry for Bangalore (main.py line 70). -/
def bangaloreLoc : Location :=
  { name := "Bangalore"
  , image := "https://images.unsplash.com/photo-1496412705862-e0088f16f791?q=80&w=1400&auto=format&fit=crop"
  , price_per_night := 179
  , available := true
  , facilities := ["pool", "gym", "spa"] }

/-- The static catalog `LOCATIONS` of main.py lines 64-71. -/
def LOCATIONS : List Location :=
  [chennaiLoc, salemLoc, keralaLoc, maduraiLoc, coimbatoreLoc, bangaloreLoc]

/-- The two client errors `create_booking` can raise
(`HTTPException(400, "Invalid location")` and
`HTTPException(400, "Checkout must be after checkin")`). -/
inductive BookingError where
  | invalidLocation
  | invalidDateRange
deriving DecidableEq

/-- The location lookup of main.py line 86:
`next((l for l in LOCATIONS if l.name == payload.location), None)`. -/
def findLocation (catalog : List Location) (name : String) : Option Location :=
  catalog.find? (fun l => l.name == name)

/-- The restaurant add-on sum of main.py line 98:
`sum(item.price * item.quantity for item in payload.restaurant_addons)`. -/
def restaurantTotal (items : List OrderedItem) : ℚ :=
  (items.map (fun i => i.price * (i.quantity : ℚ))).sum

/-- Construction of the `Booking` document, main.py lines 98-119. -/
def mkBooking (payload : BookingCreate) (location : Location) (nights : ℤ)
    (booking_id : String) : Booking :=
  { booking_id := booking_id
  , guest_name := payload.guest_name
  , email := payload.email
  , location := payload.location
  , check_in_date := payload.check_in_date
  , check_out_date := payload.check_out_date
  , check_in_time := payload.check_in_time
  , check_out_time := payload.check_out_time
  , nights := nights
  , price_per_night := location.price_per_night
  , accommodation_total := (nights : ℚ) * location.price_per_night
  , restaurant_addons := payload.restaurant_addons
  , restaurant_total := restaurantTotal payload.restaurant_addons
  , total_amount := (nights : ℚ) * location.price_per_night
      + restaurantTotal payload.restaurant_addons }

/-- The validation and pricing computation of main.py lines 84-119, up to
the persistence call: `booking_id` stands for the already-drawn random
identifier `str(uuid.uuid4())[:8].upper()`. -/
def create_booking (catalog : List Location) (payload : BookingCreate)
    (booking_id : String) : Except BookingError Booking :=
  match findLocation catalog payload.location with
  | none => .error .invalidLocation
  | some location =>
      if nightsBetween payload.check_in_date payload.check_out_date < 1 then
        .error .invalidDateRange
      else
        .ok (mkBooking payload location
          (nightsBetween payload.check_in_date payload.check_out_date) booking_id)

/-- The `create_document("booking", booking_doc)` call of main.py line 122,
abstracted to whether the write raises. -/
def attemptPersist (b : Booking) (persistFails : Bool) : Except Unit Booking :=
  if persistFails then .error () else .ok b

/-- The whole endpoint body of main.py lines 84-128: validation, pricing,
a persistence attempt whose failure is caught and swallowed (lines
121-125), and the `BookingResponse(booking_id=...)` return (line 128). -/
def bookingEndpoint (catalog : List Location) (payload : BookingCreate)
    (booking_id : String) (persistFails : Bool) : Except BookingError String :=
  match create_booking catalog payload booking_id with
  | .error e => .error e
  | .ok b =>
      match attemptPersist b persistFails with
      | .error _ => .ok b.booking_id
      | .ok _ => .ok b.booking_id

/-- Lowercase hexadecimal digit character for `n < 16`, as produced by
Python `str(uuid.uuid4())`. -/
def hexDigitChar (n : Nat) : Char :=
  if n < 10 then Char.ofNat (48 + n) else Char.ofNat (87 + n)

/-- The first eight characters of `str(u)` for a 128-bit UUID value `u`:
the zero-padded lowercase hex digits of its top 32 bits (the dash only
appears at index 8). -/
def uuidFirst8 (u : Nat) : List Char :=
  (List.range 8).map (fun i => hexDigitChar (u / 2 ^ 96 / 16 ^ (7 - i) % 16))

/-- The identifier generation of main.py line 102:
`str(uuid.uuid4())[:8].upper()`. -/
def generateBookingId (u : Nat) : List Char :=
  (uuidFirst8 u).map Char.toUpper

/-- A character is an uppercase letter or a decimal digit. -/
def isUpperAlnumChar (c : Char) : Bool :=
  (65 ≤ c.toNat && c.toNat ≤ 90) || (48 ≤ c.toNat && c.toNat ≤ 57)

instance : DecidableEq (Except BookingError Booking) := fun a b =>
  match a, b with
  | .error e1, .error e2 => decidable_of_iff (e1 = e2) (by simp)
  | .ok b1, .ok b2 => decidable_of_iff (b1 = b2) (by simp)
  | .error _, .ok _ => isFalse (by simp)
  | .ok _, .error _ => isFalse (by simp)

/-- The Chennai scenario request of the spec: check-in 2024-01-01,
check-out 2024-01-04, one Coffee add-on at price 5, quantity 2. -/
def chennaiPayload : BookingCreate :=
  { guest_name := "Alice"
  , email := "alice@example.com"
  , location := "Chennai"
  , check_in_date := ⟨2024, 1, 1⟩
  , check_out_date := ⟨2024, 1, 4⟩
  , check_in_time := "14:00"
  , check_out_time := "11:00"
  , restaurant_addons := [{ name := "Coffee", price := 5, quantity := 2 }] }

/-- The Madurai scenario request of the spec: the catalog marks Madurai
as unavailable, dates 2024-01-01 to 2024-01-04, no add-ons. -/
def maduraiPayload : BookingCreate :=
  { guest_name := "Alice"
  , email := "alice@example.com"
  , location := "Madurai"
  , check_in_date := ⟨2024, 1, 1⟩
  , check_out_date := ⟨2024, 1, 4⟩
  , check_in_time := "14:00"
  , check_out_time := "11:00"
  , restaurant_addons := [] }

/-- An unknown-location request with a same-day date range: location
"Atlantis" is not in the catalog and check-out equals check-in. -/
def atlantisPayload : BookingCreate :=
  { guest_name := "Bob"
  , email := "bob@example.com"
  , location := "Atlantis"
  , check_in_date := ⟨2024, 1, 5⟩
  , check_out_date := ⟨2024, 1, 5⟩
  , check_in_time := "14:00"
  , check_out_time := "11:00"
  , restaurant_addons := [] }

/-- A same-day request for a valid location (Chennai, 2024-01-05 to
2024-01-05). -/
def chennaiSameDayPayload : BookingCreate :=
  { chennaiPayload with check_in_date := ⟨2024, 1, 5⟩, check_out_date := ⟨2024, 1, 5⟩ }

/-! ### Inversion lemmas for `create_booking` -/

/-- A successful `create_booking` run is exactly a successful lookup, a
stay of at least one night, and the booking document built by `mkBooking`. -/
lemma create_booking_ok_iff (catalog : List Location) (payload : BookingCreate)
    (bid : String) (b : Booking) :
    create_booking catalog payload bid = .ok b ↔
      ∃ loc, findLocation catalog payload.location = some loc ∧
        1 ≤ nightsBetween payload.check_in_date payload.check_out_date ∧
        b = mkBooking payload loc
          (nightsBetween payload.check_in_date payload.check_out_date) bid := by
  unfold create_booking
  cases h : findLocation catalog payload.location with
  | none => simp
  | some loc =>
      simp only [h, Option.some.injEq]
      split
      · rename_i hlt
        constructor
        · intro hcontra; exact absurd hcontra (by simp)
        · rintro ⟨loc2, hloc2, hnights, -⟩
          omega
      · rename_i hlt
        constructor
        · intro hok
          refine ⟨loc, rfl, by omega, ?_⟩
          cases hok
          rfl
        · rintro ⟨loc2, hloc2, -, hb⟩
          cases hloc2
          cases hb
          rfl

/-- A failing `create_booking` run is exactly a failed lookup (yielding
`invalidLocation`) or a successful lookup with fewer than one night
(yielding `invalidDateRange`). -/
lemma create_booking_error_iff (catalog : List Location) (payload : BookingCreate)
    (bid : String) (e : BookingError) :
    create_booking catalog payload bid = .error e ↔
      (findLocation catalog payload.location = none ∧ e = .invalidLocation) ∨
      ((∃ loc, findLocation catalog payload.location = some loc) ∧
        nightsBetween payload.check_in_date payload.check_out_date < 1 ∧
        e = .invalidDateRange) := by
  unfold create_booking
  cases h : findLocation catalog payload.location with
  | none => simp [eq_comm]
  | some loc =>
      simp only [h, Option.some.injEq]
      split
      · rename_i hlt
        simp [eq_comm, hlt]
      · rename_i hlt
        simp [hlt]

/-! ### Lemmas about the location lookup -/

/-- The lookup misses exactly when no catalog entry's name equals the
requested name (case-sensitive). -/
lemma findLocation_eq_none_iff (catalog : List Location) (name : String) :
    findLocation catalog name = none ↔ ∀ l ∈ catalog, l.name ≠ name := by
  simp [findLocation, List.find?_eq_none]

/-- The lookup hits exactly when some catalog entry's name equals the
requested name. -/
lemma findLocation_isSome_iff (catalog : List Location) (name : String) :
    (findLocation catalog name).isSome ↔ ∃ l ∈ catalog, l.name = name := by
  simp [findLocation, List.find?_isSome]

/-- Flipping availability flags commutes with the lookup, because the
lookup compares names only. -/
lemma findLocation_map_available (f : Location → Bool) (catalog : List Location)
    (name : String) :
    findLocation (catalog.map (fun l => { l with available := f l })) name
      = Option.map (fun l => { l with available := f l }) (findLocation catalog name) := by
  simp only [findLocation]
  rw [List.find?_map]
  rfl

/-- The booking document does not read the availability flag. -/
lemma mkBooking_update_available (payload : BookingCreate) (loc : Location)
    (a : Bool) (n : ℤ) (bid : String) :
    mkBooking payload { loc with available := a } n bid = mkBooking payload loc n bid := rfl

/-! ### Lemmas about the restaurant add-on sum -/

/-- Under the schema constraints the add-on sum is non-negative. -/
lemma restaurantTotal_nonneg (items : List OrderedItem)
    (hv : ∀ i ∈ items, i.schemaValid) : 0 ≤ restaurantTotal items := by
  induction items with
  | nil => simp [restaurantTotal]
  | cons a t ih =>
      have ha := hv a (by simp)
      have hq : (1 : ℚ) ≤ (a.quantity : ℚ) := by exact_mod_cast ha.2
      have hhead : 0 ≤ a.price * (a.quantity : ℚ) :=
        mul_nonneg ha.1 (by linarith)
      have htail := ih (fun i hi => hv i (by simp [hi]))
      simp only [restaurantTotal, List.map_cons, List.sum_cons] at htail ⊢
      linarith

/-- Under the schema constraints the add-on sum vanishes exactly when
every add-on price is zero. -/
lemma restaurantTotal_eq_zero_iff (items : List OrderedItem)
    (hv : ∀ i ∈ items, i.schemaValid) :
    restaurantTotal items = 0 ↔ ∀ i ∈ items, i.price = 0 := by
  induction items with
  | nil => simp [restaurantTotal]
  | cons a t ih =>
      have ha := hv a (by simp)
      have hq : (1 : ℚ) ≤ (a.quantity : ℚ) := by exact_mod_cast ha.2
      have hhead : 0 ≤ a.price * (a.quantity : ℚ) :=
        mul_nonneg ha.1 (by linarith)
      have hvt : ∀ i ∈ t, i.schemaValid := fun i hi => hv i (by simp [hi])
      have htail := restaurantTotal_nonneg t hvt
      have hiff := ih hvt
      simp only [restaurantTotal, List.map_cons, List.sum_cons] at hiff htail ⊢
      rw [add_eq_zero_iff_of_nonneg hhead htail]
      constructor
      · rintro ⟨h1, h2⟩
        have hqne : (a.quantity : ℚ) ≠ 0 := by linarith
        have hp : a.price = 0 := by
          rcases mul_eq_zero.mp h1 with h | h
          · exact h
          · exact absurd h hqne
        intro i hi
        rcases List.mem_cons.mp hi with rfl | hi
        · exact hp
        · exact hiff.mp h2 i hi
      · intro h
        refine ⟨?_, hiff.mpr (fun i hi => h i (by simp [hi]))⟩
        rw [h a (by simp)]
        ring

/-! ### Lemmas about the identifier characters -/

/-- Uppercasing any hex digit character yields an uppercase letter or a
digit. -/
lemma hexDigitChar_toUpper_isUpperAlnum :
    ∀ m, m < 16 → isUpperAlnumChar (Char.toUpper (hexDigitChar m)) = true := by
  decide

/-- The booking document produced for the Chennai scenario with a fixed
identifier draw. -/
def chennaiBooking : Booking :=
  mkBooking chennaiPayload chennaiLoc (nightsBetween ⟨2024, 1, 1⟩ ⟨2024, 1, 4⟩) "AB12CD34"

/-! ### IEEE binary64 rounding

The arithmetic of main.py lines 98-100 runs on Python floats (IEEE 754
binary64). The exact-rational `restaurantTotal`/`mkBooking` above describe
the stored values faithfully whenever every intermediate result is
representable, but equality claims about `total_amount` are sensitive to
rounding. The following model captures binary64 round-to-nearest-even on
exact rationals for finite values below the overflow threshold (no
infinities or NaNs arise at the magnitudes considered here). -/

/-- Exponent of the unit in the last place of a binary64 number of
magnitude `|q|`: 52 bits below the leading binade, floored at the
subnormal scale 2^(-1074). -/
def ulpExp (q : ℚ) : ℤ := max (Int.log 2 |q| - 52) (-1074)

/-- Round a rational to the nearest integer, ties to even. -/
def roundHalfEven (x : ℚ) : ℤ :=
  if Int.fract x < 1 / 2 then ⌊x⌋
  else if 1 / 2 < Int.fract x then ⌊x⌋ + 1
  else if 2 ∣ ⌊x⌋ then ⌊x⌋ else ⌊x⌋ + 1

/-- Binary64 round-to-nearest-even: scale to the ulp, round to an
integer significand, scale back. -/
def fl (q : ℚ) : ℚ := (roundHalfEven (q / 2 ^ ulpExp q) : ℚ) * 2 ^ ulpExp q

/-- The float-semantics version of the add-on sum of main.py line 98:
Python's `sum` left-folds float additions, each product and each partial
sum being rounded. -/
def fpRestaurantTotal (items : List OrderedItem) : ℚ :=
  items.foldl (fun acc i => fl (acc + fl (i.price * (i.quantity : ℚ)))) 0

/-- The float-semantics accommodation total of main.py line 99. -/
def fpAccommodationTotal (nights : ℤ) (price : ℚ) : ℚ :=
  fl ((nights : ℚ) * price)

/-- The float-semantics grand total of main.py line 100. -/
def fpTotalAmount (accomTotal rest : ℚ) : ℚ := fl (accomTotal + rest)

/-- A Chennai request whose single add-on carries the smallest positive
binary64 value 5e-324 = 2^(-1074) — accepted by the schema
(`price >= 0`, `quantity >= 1`). -/
def subnormalPayload : BookingCreate :=
  { chennaiPayload with
    restaurant_addons := [{ name := "Tea", price := ((2 : ℚ) ^ 1074)⁻¹, quantity := 1 }] }

/-- The base-2 integer logarithm is pinned by a binade bracket. -/
lemma log2_pin (q : ℚ) (e : ℤ) (hq : 0 < q) (hle : (2 : ℚ) ^ e ≤ q)
    (hlt : q < (2 : ℚ) ^ (e + 1)) : Int.log 2 q = e := by
  have h1 : e ≤ Int.log 2 q :=
    (Int.zpow_le_iff_le_log (by norm_num) hq).mp (by exact_mod_cast hle)
  have h2 : Int.log 2 q < e + 1 :=
    (Int.lt_zpow_iff_log_lt (by norm_num) hq).mp (by exact_mod_cast hlt)
  omega

/-- The ulp exponent is pinned by a binade bracket. -/
lemma ulpExp_pin (q : ℚ) (e : ℤ) (hq : 0 < q) (hle : (2 : ℚ) ^ e ≤ q)
    (hlt : q < (2 : ℚ) ^ (e + 1)) : ulpExp q = max (e - 52) (-1074) := by
  rw [ulpExp, abs_of_pos hq, log2_pin q e hq hle hlt]

/-- Rounding truncates when the fractional part is below one half. -/
lemma roundHalfEven_of_fract_lt (x : ℚ) (h : Int.fract x < 1 / 2) :
    roundHalfEven x = ⌊x⌋ := by
  rw [roundHalfEven, if_pos h]

/-- The smallest positive binary64 value is exactly representable. -/
lemma fl_subnormal : fl ((2 : ℚ) ^ 1074)⁻¹ = ((2 : ℚ) ^ 1074)⁻¹ := by
  have hq : (0 : ℚ) < ((2 : ℚ) ^ 1074)⁻¹ := by positivity
  have hle : (2 : ℚ) ^ (-1074 : ℤ) ≤ ((2 : ℚ) ^ 1074)⁻¹ := by
    rw [zpow_neg]
    norm_num
  have hlt : ((2 : ℚ) ^ 1074)⁻¹ < (2 : ℚ) ^ ((-1074 : ℤ) + 1) := by
    rw [show ((-1074 : ℤ) + 1) = -1073 by norm_num, zpow_neg]
    rw [show ((2 : ℚ) ^ (1073 : ℤ)) = ((2 : ℚ) ^ (1073 : ℕ)) by norm_num]
    rw [inv_lt_inv₀ (by positivity) (by positivity)]
    norm_num
  have hulp : ulpExp ((2 : ℚ) ^ 1074)⁻¹ = -1074 := by
    rw [ulpExp_pin _ (-1074) hq hle hlt]
    norm_num
  rw [fl, hulp]
  have hx : (((2 : ℚ) ^ 1074)⁻¹ / 2 ^ (-1074 : ℤ)) = 1 := by
    rw [zpow_neg]
    rw [show ((2 : ℚ) ^ (1074 : ℤ)) = ((2 : ℚ) ^ (1074 : ℕ)) by norm_num]
    field_simp
  rw [hx, roundHalfEven_of_fract_lt 1 (by norm_num [Int.fract])]
  norm_num

/-- The value 447 is exactly representable in binary64. -/
lemma fl_447 : fl (447 : ℚ) = 447 := by
  have hle : (2 : ℚ) ^ (8 : ℤ) ≤ 447 := by norm_num
  have hlt : (447 : ℚ) < (2 : ℚ) ^ ((8 : ℤ) + 1) := by norm_num
  have hulp : ulpExp 447 = -44 := by
    rw [ulpExp_pin _ 8 (by norm_num) hle hlt]
    norm_num
  rw [fl, hulp]
  have hx : ((447 : ℚ) / 2 ^ (-44 : ℤ)) = ((447 * 2 ^ 44 : ℤ) : ℚ) := by
    rw [zpow_neg, div_eq_mul_inv, inv_inv]
    push_cast
    norm_num
  rw [hx, roundHalfEven_of_fract_lt _ (by rw [Int.fract_intCast]; norm_num)]
  rw [Int.floor_intCast]
  push_cast
  rw [zpow_neg]
  norm_num

/-- Absorption: adding the smallest positive binary64 value to 447.0
rounds back to 447.0, because the exact sum lies far below the midpoint
447 + 2^(-45) to the next float 447 + 2^(-44). -/
lemma fl_absorb : fl (447 + ((2 : ℚ) ^ 1074)⁻¹) = 447 := by
  have hε : (0 : ℚ) < ((2 : ℚ) ^ 1074)⁻¹ := by positivity
  have hε1 : ((2 : ℚ) ^ 1074)⁻¹ < 1 := by norm_num
  have hq : (0 : ℚ) < 447 + ((2 : ℚ) ^ 1074)⁻¹ := by positivity
  have hle : (2 : ℚ) ^ (8 : ℤ) ≤ 447 + ((2 : ℚ) ^ 1074)⁻¹ := by
    have : ((2 : ℚ) ^ (8 : ℤ)) = 256 := by norm_num
    linarith
  have hlt : (447 : ℚ) + ((2 : ℚ) ^ 1074)⁻¹ < (2 : ℚ) ^ ((8 : ℤ) + 1) := by
    have : ((2 : ℚ) ^ ((8 : ℤ) + 1)) = 512 := by norm_num
    linarith
  have hulp : ulpExp (447 + ((2 : ℚ) ^ 1074)⁻¹) = -44 := by
    rw [ulpExp_pin _ 8 hq hle hlt]
    norm_num
  rw [fl, hulp]
  have hpow : (2 : ℚ) ^ 1074 = 2 ^ 1030 * 2 ^ 44 := by
    rw [← pow_add]
  have hx : ((447 + ((2 : ℚ) ^ 1074)⁻¹) / 2 ^ (-44 : ℤ))
      = ((447 * 2 ^ 44 : ℤ) : ℚ) + ((2 : ℚ) ^ 1030)⁻¹ := by
    rw [zpow_neg, div_eq_mul_inv, inv_inv]
    push_cast
    rw [show ((2 : ℚ) ^ (44 : ℤ)) = ((2 : ℚ) ^ (44 : ℕ)) by norm_num]
    field_simp
    rw [hpow]
    ring
  have hδ : (0 : ℚ) ≤ ((2 : ℚ) ^ 1030)⁻¹ ∧ ((2 : ℚ) ^ 1030)⁻¹ < 1 := by
    constructor <;> norm_num
  rw [hx, roundHalfEven_of_fract_lt _ ?_]
  · rw [Int.floor_int_add,
      Int.floor_eq_zero_iff.mpr (by constructor <;> [exact hδ.1; exact hδ.2])]
    push_cast
    rw [zpow_neg]
    rw [show ((2 : ℚ) ^ (44 : ℤ)) = ((2 : ℚ) ^ (44 : ℕ)) by norm_num]
    field_simp
    ring
  · rw [Int.fract_int_add, Int.fract_eq_self.mpr hδ]
    norm_num

/-- The float add-on sum of the subnormal payload is the subnormal
itself: 0 + 5e-324 is exact. -/
lemma fpRestaurantTotal_subnormal :
    fpRestaurantTotal subnormalPayload.restaurant_addons = ((2 : ℚ) ^ 1074)⁻¹ := by
  rw [show subnormalPayload.restaurant_addons
      = [{ name := "Tea", price := ((2 : ℚ) ^ 1074)⁻¹, quantity := 1 }] from rfl]
  rw [fpRestaurantTotal, List.foldl_cons, List.foldl_nil]
  show fl (0 + fl (((2 : ℚ) ^ 1074)⁻¹ * ((1 : ℤ) : ℚ))) = ((2 : ℚ) ^ 1074)⁻¹
  rw [Int.cast_one, mul_one, fl_subnormal, zero_add, fl_subnormal]

/-- The float accommodation total of three Chennai nights is exactly
447. -/
lemma fpAccommodationTotal_chennai :
    fpAccommodationTotal 3 chennaiLoc.price_per_night = 447 := by
  rw [fpAccommodationTotal,
    show (((3 : ℤ) : ℚ) * chennaiLoc.price_per_night) = 447 by norm_num [chennaiLoc]]
  exact fl_447

/-! ### Claim theorems -/

/-- C1: every validated booking satisfies
`accommodation_total = nights * price_per_night`,
`restaurant_total = Σ (price * quantity)` over the request's add-ons, and
`total_amount = accommodation_total + restaurant_total`; in particular the
Chennai scenario (2024-01-01 to 2024-01-04, one Coffee add-on at 5 × 2)
yields totals 447, 10 and 457. -/
theorem c1_booking_totals :
    (∀ (catalog : List Location) (payload : BookingCreate) (bid : String) (b : Booking),
      create_booking catalog payload bid = .ok b →
        b.accommodation_total = (b.nights : ℚ) * b.price_per_night ∧
        b.restaurant_total = restaurantTotal payload.restaurant_addons ∧
        b.total_amount = b.accommodation_total + b.restaurant_total) ∧
    (∃ b, create_booking LOCATIONS chennaiPayload "AB12CD34" = .ok b ∧
      b.accommodation_total = 447 ∧ b.restaurant_total = 10 ∧ b.total_amount = 457) := by
  constructor
  · intro catalog payload bid b hb
    obtain ⟨loc, -, -, rfl⟩ := (create_booking_ok_iff catalog payload bid b).mp hb
    exact ⟨rfl, rfl, rfl⟩
  · have hn : nightsBetween ⟨2024, 1, 1⟩ ⟨2024, 1, 4⟩ = 3 := by decide
    refine ⟨_, rfl, ?_, ?_, ?_⟩ <;>
      simp only [mkBooking, restaurantTotal, hn, chennaiPayload, chennaiLoc,
        List.map, List.sum_cons, List.sum_nil] <;>
      norm_num

/-- C1 witness: the general part of `c1_booking_totals` instantiated at the
Chennai scenario. -/
theorem c1_booking_totals_witness :
    create_booking LOCATIONS chennaiPayload "AB12CD34" = .ok chennaiBooking ∧
    chennaiBooking.accommodation_total
      = (chennaiBooking.nights : ℚ) * chennaiBooking.price_per_night ∧
    chennaiBooking.restaurant_total = restaurantTotal chennaiPayload.restaurant_addons ∧
    chennaiBooking.total_amount
      = chennaiBooking.accommodation_total + chennaiBooking.restaurant_total := by
  have h : create_booking LOCATIONS chennaiPayload "AB12CD34" = .ok chennaiBooking := rfl
  exact ⟨h, c1_booking_totals.1 LOCATIONS chennaiPayload "AB12CD34" chennaiBooking h⟩

/-- C2 counterexample: a request whose location is unknown AND whose
check-out equals its check-in fails with `invalidLocation`, not
`invalidDateRange`, because the location check runs first (main.py lines
86-88 precede lines 91-96). -/
theorem c2_counterexample :
    nightsBetween atlantisPayload.check_in_date atlantisPayload.check_out_date < 1 ∧
    create_booking LOCATIONS atlantisPayload "AB12CD34" = .error .invalidLocation ∧
    BookingError.invalidLocation ≠ BookingError.invalidDateRange :=
  ⟨by decide, rfl, by decide⟩

/-- C2 (amended): for a request whose location is found, a day difference
below 1 always fails with `invalidDateRange` (and the endpoint returns that
error before any persistence attempt, for either persistence outcome); a
day difference of at least 1 never produces `invalidDateRange`. -/
theorem c2_invalid_date_range :
    (∀ (catalog : List Location) (payload : BookingCreate) (bid : String) (pf : Bool),
      findLocation catalog payload.location ≠ none →
      nightsBetween payload.check_in_date payload.check_out_date < 1 →
      bookingEndpoint catalog payload bid pf = .error .invalidDateRange) ∧
    (∀ (catalog : List Location) (payload : BookingCreate) (bid : String),
      1 ≤ nightsBetween payload.check_in_date payload.check_out_date →
      create_booking catalog payload bid ≠ .error .invalidDateRange) := by
  constructor
  · intro catalog payload bid pf hne hlt
    obtain ⟨loc, hloc⟩ := Option.ne_none_iff_exists.mp hne
    have herr : create_booking catalog payload bid = .error .invalidDateRange :=
      (create_booking_error_iff catalog payload bid _).mpr
        (Or.inr ⟨⟨loc, hloc.symm⟩, hlt, rfl⟩)
    simp [bookingEndpoint, herr]
  · intro catalog payload bid hge hcontra
    rcases (create_booking_error_iff catalog payload bid _).mp hcontra with
      ⟨-, habs⟩ | ⟨-, hlt, -⟩
    · exact absurd habs (by simp)
    · omega

/-- C2 witness: the amended theorem at a Chennai same-day request (error)
and at the three-night Chennai request (no date-range error). -/
theorem c2_invalid_date_range_witness :
    bookingEndpoint LOCATIONS chennaiSameDayPayload "AB12CD34" false
      = .error .invalidDateRange ∧
    create_booking LOCATIONS chennaiPayload "AB12CD34" ≠ .error .invalidDateRange :=
  ⟨c2_invalid_date_range.1 LOCATIONS chennaiSameDayPayload "AB12CD34" false
      (by decide) (by decide),
   c2_invalid_date_range.2 LOCATIONS chennaiPayload "AB12CD34" (by decide)⟩

/-- C3: a request whose location name matches no catalog entry
(case-sensitive) always fails with `invalidLocation` — the endpoint
returns that error without reaching the persistence step, for either
persistence outcome — and a request whose location does match never
produces `invalidLocation`. -/
theorem c3_invalid_location :
    (∀ (catalog : List Location) (payload : BookingCreate) (bid : String) (pf : Bool),
      (∀ l ∈ catalog, l.name ≠ payload.location) →
      bookingEndpoint catalog payload bid pf = .error .invalidLocation) ∧
    (∀ (catalog : List Location) (payload : BookingCreate) (bid : String),
      (∃ l ∈ catalog, l.name = payload.location) →
      create_booking catalog payload bid ≠ .error .invalidLocation) := by
  constructor
  · intro catalog payload bid pf hmiss
    have hnone : findLocation catalog payload.location = none :=
      (findLocation_eq_none_iff catalog payload.location).mpr hmiss
    have herr : create_booking catalog payload bid = .error .invalidLocation :=
      (create_booking_error_iff catalog payload bid _).mpr (Or.inl ⟨hnone, rfl⟩)
    simp [bookingEndpoint, herr]
  · intro catalog payload bid hhit hcontra
    have hsome : (findLocation catalog payload.location).isSome :=
      (findLocation_isSome_iff catalog payload.location).mpr hhit
    rcases (create_booking_error_iff catalog payload bid _).mp hcontra with
      ⟨hnone, -⟩ | ⟨-, -, habs⟩
    · rw [hnone] at hsome
      exact absurd hsome (by simp)
    · exact absurd habs (by simp)

/-- C3 witness: `c3_invalid_location` at the "Atlantis" request (unknown
location) and at the Chennai request (known location). -/
theorem c3_invalid_location_witness :
    bookingEndpoint LOCATIONS atlantisPayload "AB12CD34" false = .error .invalidLocation ∧
    create_booking LOCATIONS chennaiPayload "AB12CD34" ≠ .error .invalidLocation :=
  ⟨c3_invalid_location.1 LOCATIONS atlantisPayload "AB12CD34" false (by decide),
   c3_invalid_location.2 LOCATIONS chennaiPayload "AB12CD34"
     ⟨chennaiLoc, by decide, rfl⟩⟩

/-- C4: the only failures of the booking computation are
`invalidLocation` and `invalidDateRange`; every request with a catalog
location and a day difference of at least 1 succeeds, and the endpoint
returns its booking identifier whether or not the write fails. -/
theorem c4_error_taxonomy :
    (∀ (catalog : List Location) (payload : BookingCreate) (bid : String) (e : BookingError),
      create_booking catalog payload bid = .error e →
      e = .invalidLocation ∨ e = .invalidDateRange) ∧
    (∀ (catalog : List Location) (payload : BookingCreate) (bid : String) (pf : Bool),
      (∃ l ∈ catalog, l.name = payload.location) →
      1 ≤ nightsBetween payload.check_in_date payload.check_out_date →
      ∃ b, create_booking catalog payload bid = .ok b ∧
        bookingEndpoint catalog payload bid pf = .ok b.booking_id ∧
        b.booking_id = bid) := by
  constructor
  · intro catalog payload bid e he
    cases e
    · exact Or.inl rfl
    · exact Or.inr rfl
  · intro catalog payload bid pf hhit hge
    have hsome : (findLocation catalog payload.location).isSome :=
      (findLocation_isSome_iff catalog payload.location).mpr hhit
    obtain ⟨loc, hloc⟩ := Option.isSome_iff_exists.mp hsome
    have hok : create_booking catalog payload bid
        = .ok (mkBooking payload loc
            (nightsBetween payload.check_in_date payload.check_out_date) bid) :=
      (create_booking_ok_iff catalog payload bid _).mpr ⟨loc, hloc, hge, rfl⟩
    refine ⟨_, hok, ?_, rfl⟩
    cases pf <;> simp [bookingEndpoint, hok, attemptPersist]

/-- C4 witness: `c4_error_taxonomy` at the Chennai request with a failing
write, and at a concrete error run. -/
theorem c4_error_taxonomy_witness :
    (BookingError.invalidLocation = BookingError.invalidLocation ∨
      BookingError.invalidLocation = BookingError.invalidDateRange) ∧
    ∃ b, create_booking LOCATIONS chennaiPayload "AB12CD34" = .ok b ∧
      bookingEndpoint LOCATIONS chennaiPayload "AB12CD34" true = .ok b.booking_id ∧
      b.booking_id = "AB12CD34" :=
  ⟨c4_error_taxonomy.1 LOCATIONS atlantisPayload "AB12CD34" .invalidLocation rfl,
   c4_error_taxonomy.2 LOCATIONS chennaiPayload "AB12CD34" true
     ⟨chennaiLoc, by decide, rfl⟩ (by decide)⟩

/-- C5: once validation succeeds, a failing write changes nothing for the
caller: the write failure is swallowed, the endpoint still returns the
computed booking identifier, and the response equals the one of a
successful write. -/
theorem c5_persistence_swallowed
    (catalog : List Location) (payload : BookingCreate) (bid : String) (b : Booking)
    (hb : create_booking catalog payload bid = .ok b) :
    attemptPersist b true = .error () ∧
    bookingEndpoint catalog payload bid true = .ok b.booking_id ∧
    bookingEndpoint catalog payload bid true = bookingEndpoint catalog payload bid false := by
  refine ⟨rfl, ?_, ?_⟩ <;> simp [bookingEndpoint, hb, attemptPersist]

/-- C5 witness: `c5_persistence_swallowed` at the Chennai scenario. -/
theorem c5_persistence_swallowed_witness :
    attemptPersist chennaiBooking true = .error () ∧
    bookingEndpoint LOCATIONS chennaiPayload "AB12CD34" true = .ok chennaiBooking.booking_id ∧
    bookingEndpoint LOCATIONS chennaiPayload "AB12CD34" true
      = bookingEndpoint LOCATIONS chennaiPayload "AB12CD34" false :=
  c5_persistence_swallowed LOCATIONS chennaiPayload "AB12CD34" chennaiBooking rfl

/-- C6: the stored `price_per_night` comes from the matched catalog
entry, and two validated requests with the same location name and the
same number of nights always get the same accommodation total — no other
request field can influence it. -/
theorem c6_price_from_catalog
    (catalog : List Location) (p1 p2 : BookingCreate) (bid1 bid2 : String)
    (loc : Location) (b1 b2 : Booking)
    (hloc : findLocation catalog p1.location = some loc)
    (h1 : create_booking catalog p1 bid1 = .ok b1)
    (h2 : create_booking catalog p2 bid2 = .ok b2)
    (hl : p1.location = p2.location)
    (hn : nightsBetween p1.check_in_date p1.check_out_date
      = nightsBetween p2.check_in_date p2.check_out_date) :
    b1.price_per_night = loc.price_per_night ∧
    b1.accommodation_total = b2.accommodation_total := by
  obtain ⟨loc1, hloc1, -, rfl⟩ := (create_booking_ok_iff catalog p1 bid1 b1).mp h1
  obtain ⟨loc2, hloc2, -, rfl⟩ := (create_booking_ok_iff catalog p2 bid2 b2).mp h2
  rw [← hl] at hloc2
  have e1 : loc1 = loc := Option.some.inj (hloc1.symm.trans hloc)
  have e2 : loc2 = loc := Option.some.inj (hloc2.symm.trans hloc)
  subst e1
  subst e2
  exact ⟨rfl, by simp [mkBooking, hn]⟩

/-- C6 witness: `c6_price_from_catalog` at two Chennai requests that
differ in guest, email and add-ons but share location and dates. -/
theorem c6_price_from_catalog_witness :
    chennaiBooking.price_per_night = chennaiLoc.price_per_night ∧
    chennaiBooking.accommodation_total
      = (mkBooking { chennaiPayload with guest_name := "Carol", restaurant_addons := [] }
          chennaiLoc (nightsBetween ⟨2024, 1, 1⟩ ⟨2024, 1, 4⟩) "ZZ99ZZ99").accommodation_total :=
  c6_price_from_catalog LOCATIONS chennaiPayload
    { chennaiPayload with guest_name := "Carol", restaurant_addons := [] }
    "AB12CD34" "ZZ99ZZ99" chennaiLoc chennaiBooking
    (mkBooking { chennaiPayload with guest_name := "Carol", restaurant_addons := [] }
      chennaiLoc (nightsBetween ⟨2024, 1, 1⟩ ⟨2024, 1, 4⟩) "ZZ99ZZ99")
    rfl rfl rfl rfl rfl

/-- C7: the availability flag is never consulted — flipping it across the
whole catalog leaves every booking outcome unchanged — and the Madurai
scenario (whose catalog entry is unavailable) succeeds with accommodation
total 3 × 129 = 387. -/
theorem c7_availability_not_enforced :
    (∀ (f : Location → Bool) (catalog : List Location) (payload : BookingCreate)
      (bid : String),
      create_booking (catalog.map (fun l => { l with available := f l })) payload bid
        = create_booking catalog payload bid) ∧
    (∃ b, create_booking LOCATIONS maduraiPayload "AB12CD34" = .ok b ∧
      b.accommodation_total = 387) ∧
    Option.map Location.available (findLocation LOCATIONS "Madurai") = some false := by
  refine ⟨?_, ?_, rfl⟩
  · intro f catalog payload bid
    unfold create_booking
    rw [findLocation_map_available]
    cases findLocation catalog payload.location with
    | none => rfl
    | some loc => rfl
  · have hn : nightsBetween ⟨2024, 1, 1⟩ ⟨2024, 1, 4⟩ = 3 := by decide
    refine ⟨_, rfl, ?_⟩
    simp only [mkBooking, maduraiPayload, maduraiLoc, hn]
    norm_num

/-- C8: every generated booking identifier has exactly 8 characters, each
an uppercase letter or a digit. -/
theorem c8_identifier_format (u : Nat) (c : Char) (hc : c ∈ generateBookingId u) :
    (generateBookingId u).length = 8 ∧ isUpperAlnumChar c = true := by
  constructor
  · simp [generateBookingId, uuidFirst8]
  · simp only [generateBookingId, uuidFirst8, List.mem_map, List.mem_range] at hc
    obtain ⟨c0, ⟨i, hi, rfl⟩, rfl⟩ := hc
    exact hexDigitChar_toUpper_isUpperAlnum _ (Nat.mod_lt _ (by norm_num))

/-- C8 witness: `c8_identifier_format` at the zero UUID and its first
character. -/
theorem c8_identifier_format_witness :
    (generateBookingId 0).length = 8 ∧ isUpperAlnumChar '0' = true :=
  c8_identifier_format 0 '0' (by decide)

/-- C9: apart from the identifier draw the computation is deterministic —
two successful runs on the same request and catalog produce bookings that
agree on every field except `booking_id`, which equals the respective
draw. -/
theorem c9_deterministic_modulo_id
    (catalog : List Location) (payload : BookingCreate) (bid1 bid2 : String)
    (b1 b2 : Booking)
    (h1 : create_booking catalog payload bid1 = .ok b1)
    (h2 : create_booking catalog payload bid2 = .ok b2) :
    b1.booking_id = bid1 ∧ b2.booking_id = bid2 ∧ b1 = { b2 with booking_id := bid1 } := by
  obtain ⟨loc1, hloc1, -, rfl⟩ := (create_booking_ok_iff catalog payload bid1 b1).mp h1
  obtain ⟨loc2, hloc2, -, rfl⟩ := (create_booking_ok_iff catalog payload bid2 b2).mp h2
  obtain rfl : loc1 = loc2 := Option.some.inj (hloc1.symm.trans hloc2)
  exact ⟨rfl, rfl, rfl⟩

/-- C9 witness: `c9_deterministic_modulo_id` at the Chennai scenario with
two different identifier draws. -/
theorem c9_deterministic_modulo_id_witness :
    chennaiBooking.booking_id = "AB12CD34" ∧
    (mkBooking chennaiPayload chennaiLoc
      (nightsBetween ⟨2024, 1, 1⟩ ⟨2024, 1, 4⟩) "ZZ99ZZ99").booking_id = "ZZ99ZZ99" ∧
    chennaiBooking = { mkBooking chennaiPayload chennaiLoc
      (nightsBetween ⟨2024, 1, 1⟩ ⟨2024, 1, 4⟩) "ZZ99ZZ99" with booking_id := "AB12CD34" } :=
  c9_deterministic_modulo_id LOCATIONS chennaiPayload "AB12CD34" "ZZ99ZZ99"
    chennaiBooking
    (mkBooking chennaiPayload chennaiLoc
      (nightsBetween ⟨2024, 1, 1⟩ ⟨2024, 1, 4⟩) "ZZ99ZZ99")
    rfl rfl

/-- C10 counterexample: the "equality exactly when the add-on list is
empty or all prices are 0" clause fails under the program's IEEE binary64
arithmetic. A schema-valid Chennai request whose single add-on costs
5e-324 = 2^(-1074) passes validation, its float restaurant total is
positive, yet the float grand total 447.0 + 5e-324 rounds back to the
accommodation total 447.0 (absorption), so equality holds with a non-zero
add-on price. -/
theorem c10_counterexample :
    (∀ i ∈ subnormalPayload.restaurant_addons, i.schemaValid) ∧
    (∃ b, create_booking LOCATIONS subnormalPayload "AB12CD34" = .ok b) ∧
    ¬ (subnormalPayload.restaurant_addons = [] ∨
        ∀ i ∈ subnormalPayload.restaurant_addons, i.price = 0) ∧
    0 < fpRestaurantTotal subnormalPayload.restaurant_addons ∧
    fpTotalAmount (fpAccommodationTotal 3 chennaiLoc.price_per_night)
        (fpRestaurantTotal subnormalPayload.restaurant_addons)
      = fpAccommodationTotal 3 chennaiLoc.price_per_night := by
  refine ⟨?_, ⟨_, rfl⟩, ?_, ?_, ?_⟩
  · intro i hi
    rw [show subnormalPayload.restaurant_addons
        = [{ name := "Tea", price := ((2 : ℚ) ^ 1074)⁻¹, quantity := 1 }] from rfl] at hi
    rcases List.mem_singleton.mp hi with rfl
    exact ⟨by positivity, le_refl 1⟩
  · rw [show subnormalPayload.restaurant_addons
        = [{ name := "Tea", price := ((2 : ℚ) ^ 1074)⁻¹, quantity := 1 }] from rfl]
    rintro (hnil | hzero)
    · exact absurd hnil (by simp)
    · have h := hzero _ (List.mem_singleton.mpr rfl)
      simp only at h
      have : (0 : ℚ) < ((2 : ℚ) ^ 1074)⁻¹ := by positivity
      rw [h] at this
      exact lt_irrefl 0 this
  · rw [fpRestaurantTotal_subnormal]
    positivity
  · rw [fpRestaurantTotal_subnormal, fpAccommodationTotal_chennai, fpTotalAmount]
    exact fl_absorb

/-- C10 (amended): under the schema constraints on add-ons (price ≥ 0,
quantity ≥ 1) every successful booking has a non-negative restaurant
total, so the grand total is at least the accommodation total; equality
holds whenever the add-on list is empty or all add-on prices are zero
(the converse fails under IEEE rounding, see the counterexample). -/
theorem c10_addon_totals
    (catalog : List Location) (payload : BookingCreate) (bid : String) (b : Booking)
    (hv : ∀ i ∈ payload.restaurant_addons, i.schemaValid)
    (hb : create_booking catalog payload bid = .ok b) :
    0 ≤ b.restaurant_total ∧ b.accommodation_total ≤ b.total_amount ∧
    ((payload.restaurant_addons = [] ∨ ∀ i ∈ payload.restaurant_addons, i.price = 0) →
      b.total_amount = b.accommodation_total) := by
  obtain ⟨loc, -, -, rfl⟩ := (create_booking_ok_iff catalog payload bid b).mp hb
  have h0 := restaurantTotal_nonneg payload.restaurant_addons hv
  refine ⟨h0, le_add_of_nonneg_right h0, ?_⟩
  intro h
  have hz : restaurantTotal payload.restaurant_addons = 0 := by
    rcases h with hnil | h
    · rw [hnil]
      rfl
    · exact (restaurantTotal_eq_zero_iff payload.restaurant_addons hv).mpr h
  simp only [mkBooking]
  rw [hz, add_zero]

/-- C10 witness: `c10_addon_totals` at the Chennai scenario, whose single
add-on satisfies the schema constraints. -/
theorem c10_addon_totals_witness :
    0 ≤ chennaiBooking.restaurant_total ∧
    chennaiBooking.accommodation_total ≤ chennaiBooking.total_amount ∧
    ((chennaiPayload.restaurant_addons = [] ∨
        ∀ i ∈ chennaiPayload.restaurant_addons, i.price = 0) →
      chennaiBooking.total_amount = chennaiBooking.accommodation_total) :=
  c10_addon_totals LOCATIONS chennaiPayload "AB12CD34" chennaiBooking (by decide) rfl

end BookMyResort
